import Mathlib

/-!
Shallow embedding of the KTC (Klipper Tool Changer) core, from
`src/extensions/ktc_base.py` and `src/extensions/ktc_tool.py`.

The tool/toolchanger arena is modelled as total maps from natural-number
indices to entity records (the two reserved sentinel tools `TOOL_NONE` and
`TOOL_UNKNOWN` are not arena entries; references to them are the dedicated
`ToolRef` constructors, mirroring the source's identity comparisons against
the module-level sentinel objects).  External collaborators (the homing
check, the gcode-template procedures, the saved fan speed) are an explicit
`Env` record; a procedure is an arbitrary world transformer returning
`none` when it raises.  Exceptions are modelled by threading the world
through an `Option Err` field, so mutations made before a raise persist,
exactly as in Python.
-/

namespace KTC

/- State constants of `KtcBaseClass.StateType` (ktc_base.py lines 289-307).
The Python type is an `IntEnum` whose comparisons are by numeric value;
`SELECTING`/`ENGAGING`, `DESELECTING`/`DISENGAGING` and `SELECTED`/`ENGAGED`
are aliases sharing one value, so the states are embedded as integers. -/
namespace StateType

def ERROR : Int := -50
def NOT_CONFIGURED : Int := -12
def CONFIGURING : Int := -11
def CONFIGURED : Int := -10
def UNINITIALIZED : Int := -2
def INITIALIZING : Int := -1
def INITIALIZED : Int := 0
def READY : Int := 1
def CHANGING : Int := 2
def ENGAGING : Int := 3
def SELECTING : Int := 3
def DISENGAGING : Int := 4
def DESELECTING : Int := 4
def ENGAGED : Int := 5
def SELECTED : Int := 5
def ACTIVE : Int := 10

end StateType

/-- Modelled from the spec: `ktc_heater.KtcHeater.StateType` (the file
`ktc_heater.py` is not under src/).  Spec section 4.4 gives the three
heater power states Off/Standby/Active. -/
inductive HeaterState
  | off
  | standby
  | active
deriving DecidableEq, Repr

/-- Reference to a tool: either one of the two process-wide sentinel tool
objects (`KtcConstantsClass.TOOL_NONE` / `TOOL_UNKNOWN`, ktc_base.py lines
461-471, compared by identity in the source) or a real tool in the arena. -/
inductive ToolRef
  | tool_none
  | tool_unknown
  | real (i : Nat)
deriving DecidableEq, Repr

/-- A `KtcTool` entity: the fields of `KtcBaseClass`/`KtcBaseToolClass`/
`KtcTool` that the verified operations read or write.  The two timer fields
model the last duration passed to the corresponding
`ktc_ToolStandbyTempTimer.set_timer` call (timer class in `ktc_heater.py`,
not under src/; per spec section 4.4 a zero duration disables the timer). -/
structure ToolE where
  name : String
  state : Int
  toolchanger : Nat
  force_deselect_when_parent_deselects : Bool
  parent_must_be_selected_on_deselect : Bool
  heaters : Option (List String)
  heater_state : HeaterState
  heater_active_temp : Rat
  heater_standby_temp : Rat
  heater_active_to_standby_delay : Rat
  heater_standby_to_powerdown_delay : Rat
  timer_to_standby : Rat
  timer_to_powerdown : Rat
  fan : Option String
  requires_axis_homed : String
deriving DecidableEq, Repr

/-- A `KtcToolchanger` entity (`KtcBaseChangerClass`, ktc_base.py lines
401-411): lifecycle state, optional parent tool (present when the changer is
mounted on another tool) and the selected-tool reference. -/
structure Changer where
  state : Int
  parent_tool : Option Nat
  selected_tool : ToolRef
deriving DecidableEq, Repr

/-- The process-wide mutable state: the tool/toolchanger arena, the `ktc`
singleton's `active_tool` reference and its `propagate_state` flag. -/
structure World where
  tools : Nat → ToolE
  changers : Nat → Changer
  active_tool : ToolRef
  propagate_state : Bool

def updateTool (w : World) (i : Nat) (f : ToolE → ToolE) : World :=
  { w with tools := fun j => if j = i then f (w.tools j) else w.tools j }

def updateChanger (w : World) (i : Nat) (f : Changer → Changer) : World :=
  { w with changers := fun j => if j = i then f (w.changers j) else w.changers j }

/-- The `KtcBaseToolClass.state` setter (ktc_base.py lines 426-446): set the
tool's own state; unless the tool is a sentinel (sentinels are not arena
entries, so that guard never fires here), when `propagate_state` is on also
set the owning toolchanger's state, on SELECTED set the toolchanger's
selected tool, and on ACTIVE additionally set the process-wide active tool.
The setter's name/string round-trip (`StateType[str(value).upper()]`) is the
identity for every valid state value and is elided. -/
def setToolState (w : World) (i : Nat) (v : Int) : World :=
  let w1 := updateTool w i (fun t => { t with state := v })
  let tc := (w1.tools i).toolchanger
  let w2 := if w1.propagate_state then
      updateChanger w1 tc (fun c => { c with state := v })
    else w1
  if v = StateType.SELECTED ∧ w2.propagate_state then
    updateChanger w2 tc (fun c => { c with selected_tool := ToolRef.real i })
  else if v = StateType.ACTIVE ∧ w2.propagate_state then
    let w3 := updateChanger w2 tc (fun c => { c with selected_tool := ToolRef.real i })
    { w3 with active_tool := ToolRef.real i }
  else w2

/-- Keyword arguments accepted by `KtcTool.set_heater` (ktc_tool.py line
401); a `none` field means the keyword was not passed. -/
structure SetHeaterKwargs where
  heater_state : Option HeaterState
  heater_active_temp : Option Rat
  heater_standby_temp : Option Rat
  heater_active_to_standby_delay : Option Rat
  heater_standby_to_powerdown_delay : Option Rat
deriving DecidableEq, Repr

/-- `KtcTool.set_heater` (ktc_tool.py lines 401-579).  The first statement
of the body is a bare `return` (line 402), so the function returns
immediately and the remainder of the body - including the
heater-state/timer logic of lines 403-577 - is unreachable.  The faithful
embedding is therefore the identity on the world. -/
def set_heater (w : World) (_i : Nat) (_kw : SetHeaterKwargs) : World :=
  w

/-- Observable events emitted by the coordinator: the save-position request
to the motion collaborator, the `SET_FAN_SPEED` scripts, and the start and
end of each external gcode-procedure invocation (the instrumentation points
of the spec's ordering property, section 8). -/
inductive Event
  | savePosition
  | fanSet (fan : String) (speed : Rat)
  | deselStart (i : Nat)
  | deselEnd (i : Nat)
  | selStart (i : Nat)
  | selEnd (i : Nat)
deriving DecidableEq, Repr

/-- Exceptions raised by the embedded operations (all Python exceptions
propagate synchronously; the precise exception class is irrelevant to the
claims, only which check raised). -/
inductive Err
  | notHomed
  | unknownMounted
  | procRaised
  | didNotTransition
  | procErrorState
  | recursionLimit
  | circularInheritance
  | initOffsetSaved
deriving DecidableEq, Repr

/-- External collaborators of the coordinator: the homing predicate
(`ktc.printer_is_homed_for_toolchange`), the select/deselect gcode-template
procedures (arbitrary world transformers; `none` models the procedure
raising), and `ktc`'s saved fan speed read back in `select`. -/
structure Env where
  homed : String → Bool
  selProc : Nat → World → Option World
  deselProc : Nat → World → Option World
  savedFanSpeed : Rat

/-- Result of a stateful operation: the trace of events emitted so far, the
world as left behind (mutations made before an exception persist, as in
Python), and the exception in flight, if any. -/
structure Res where
  trace : List Event
  world : World
  err : Option Err

/-- `KtcTool.deselect` (ktc_tool.py lines 288-336): homing check, fan off,
state to DESELECTING, run the external procedure (the source loads the
template from `_tool_select_gcode`, line 310), then the post-checks of
lines 320-331 - note the first check compares against ENGAGING (the
select-side transient state), not DESELECTING - and finally set the
process-wide active tool to the "none" sentinel. -/
def deselect (env : Env) (w : World) (i : Nat) : Res :=
  if !(env.homed (w.tools i).requires_axis_homed) then ⟨[], w, some Err.notHomed⟩
  else
    let trFan : List Event :=
      match (w.tools i).fan with
      | some f => [Event.fanSet f 0]
      | none => []
    let w1 := setToolState w i StateType.DESELECTING
    match env.deselProc i w1 with
    | none => ⟨trFan ++ [Event.deselStart i], w1, some Err.procRaised⟩
    | some w2 =>
      let tr := trFan ++ [Event.deselStart i, Event.deselEnd i]
      if (w2.tools i).state = StateType.ENGAGING then ⟨tr, w2, some Err.didNotTransition⟩
      else if (w2.tools i).state = StateType.ERROR then ⟨tr, w2, some Err.procErrorState⟩
      else ⟨tr, { w2 with active_tool := ToolRef.tool_none }, none⟩

/-- `KtcTool._get_list_from_tool_traversal_conditional` (ktc_tool.py lines
338-358): starting from a tool reference, collect each tool satisfying the
condition while walking up through parent-toolchanger to parent-tool links
(appending the tool before its ancestors, i.e. leaf first).  Sentinel
references yield the empty list (the source's `start_tool == self._ktc`
guard can only see tool objects here and is dead).  The source recurses
without any bound and would hit Python's recursion limit on a cyclic parent
chain; the embedding takes fuel and returns `none` in that case. -/
def traversal (w : World) (cond : ToolE → Bool) : Nat → ToolRef → Option (List Nat)
  | _, ToolRef.tool_none => some []
  | _, ToolRef.tool_unknown => some []
  | 0, ToolRef.real _ => none
  | Nat.succ fuel, ToolRef.real t =>
    let tl := w.tools t
    let selfPart := if cond tl then [t] else []
    match (w.changers tl.toolchanger).parent_tool with
    | none => some selfPart
    | some up =>
      match traversal w cond fuel (ToolRef.real up) with
      | none => none
      | some rest => some (selfPart ++ rest)

/-- Run `step` on each tool index in order, threading the world and
concatenating traces; an exception aborts the remaining iterations (the
Python `for` loops over the chains at ktc_tool.py lines 223-224, 228-229). -/
def runChain (step : World → Nat → Res) : List Nat → World → Res
  | [], w => ⟨[], w, none⟩
  | t :: ts, w =>
    let r := step w t
    match r.err with
    | some _ => r
    | none =>
      let s := runChain step ts r.world
      ⟨r.trace ++ s.trace, s.world, s.err⟩

/-- The tail of `KtcTool.select` common to both `final_selected` values
(ktc_tool.py lines 231-286): early return when already ENGAGED, homing
check, state to SELECTING, run the external select procedure, the
did-not-transition check of line 263 (the state being ERROR is NOT checked
here, unlike in `deselect`), fan restore, and, when `final_selected`,
setting the process-wide active tool and the ACTIVE state. -/
def select_tail (env : Env) (fin : Bool) (w : World) (i : Nat) : Res :=
  if (w.tools i).state = StateType.ENGAGED then ⟨[], w, none⟩
  else if !(env.homed (w.tools i).requires_axis_homed) then ⟨[], w, some Err.notHomed⟩
  else
    let w1 := setToolState w i StateType.SELECTING
    match env.selProc i w1 with
    | none => ⟨[Event.selStart i], w1, some Err.procRaised⟩
    | some w2 =>
      if (w2.tools i).state = StateType.SELECTING then
        ⟨[Event.selStart i, Event.selEnd i], w2, some Err.didNotTransition⟩
      else
        let trFan : List Event :=
          match (w2.tools i).fan with
          | some f => [Event.fanSet f env.savedFanSpeed]
          | none => []
        if fin then
          let w3 := { w2 with active_tool := ToolRef.real i }
          let w4 := setToolState w3 i StateType.ACTIVE
          ⟨[Event.selStart i, Event.selEnd i] ++ trFan, w4, none⟩
        else ⟨[Event.selStart i, Event.selEnd i] ++ trFan, w2, none⟩

/-- The cross-toolchanger branch of `KtcTool.select` (ktc_tool.py lines
219-229): collect the active tool's ancestor chain filtered by
`force_deselect_when_parent_deselects` and deselect it leaf to root, then
collect the target tool's ancestor chain filtered by state not ENGAGED and
select it in reverse (root to leaf) with `final_selected=False`. -/
def crossChains (env : Env) (fuel : Nat) (w : World) (i j : Nat) : Res :=
  match traversal w (fun t => t.force_deselect_when_parent_deselects) fuel (ToolRef.real j) with
  | none => ⟨[], w, some Err.recursionLimit⟩
  | some toolsD =>
    let r1 := runChain (fun w' t => deselect env w' t) toolsD w
    match r1.err with
    | some _ => r1
    | none =>
      match traversal r1.world (fun t => decide (t.state ≠ StateType.ENGAGED)) fuel
          (ToolRef.real i) with
      | none => ⟨r1.trace, r1.world, some Err.recursionLimit⟩
      | some toolsS =>
        let r2 := runChain (fun w' t => select_tail env false w' t) toolsS.reverse r1.world
        ⟨r1.trace ++ r2.trace, r2.world, r2.err⟩

/-- `KtcTool.select` (ktc_tool.py lines 174-286).  When `final_selected`:
return at once if the tool is already the active tool; raise if the active
tool is the "unknown" sentinel; call `set_heater` towards ACTIVE when the
tool has heater bindings (a no-op, see `set_heater`); save the position when
a restore mode is given; then, if some tool is active, either deselect it
directly (same toolchanger) or run the cross-toolchanger chains.  In every
case execution then falls through to `select_tail`. -/
def select (env : Env) (fuel : Nat) (w : World) (i : Nat)
    (restore_mode : Option Unit) (fin : Bool) : Res :=
  if fin then
    if w.active_tool = ToolRef.real i then ⟨[], w, none⟩
    else if w.active_tool = ToolRef.tool_unknown then ⟨[], w, some Err.unknownMounted⟩
    else
      let w1 := if (w.tools i).heaters.isSome then
          set_heater w i ⟨some HeaterState.active, none, none, none, none⟩
        else w
      let trP : List Event :=
        match restore_mode with
        | some _ => [Event.savePosition]
        | none => []
      let c : Res :=
        match w.active_tool with
        | ToolRef.tool_none => ⟨[], w1, none⟩
        | ToolRef.tool_unknown => ⟨[], w1, none⟩
        | ToolRef.real j =>
          if (w1.tools i).toolchanger = (w1.tools j).toolchanger then deselect env w1 j
          else crossChains env fuel w1 i j
      match c.err with
      | some e => ⟨trP ++ c.trace, c.world, some e⟩
      | none =>
        let s := select_tail env fin c.world i
        ⟨trP ++ c.trace ++ s.trace, s.world, s.err⟩
  else select_tail env fin w i

/- Parameter-inheritance resolver, from `KtcBaseClass.configure_inherited_params`
(ktc_base.py lines 181-243) and the `PARAMS_TO_INHERIT` table (lines 33-48). -/

/-- The thirteen inheritable attributes listed in `PARAMS_TO_INHERIT`
(ktc_base.py lines 33-48). -/
inductive PKey
  | engage_gcode
  | disengage_gcode
  | init_gcode
  | tool_select_gcode
  | tool_deselect_gcode
  | force_deselect_when_parent_deselects
  | parent_must_be_selected_on_deselect
  | heaters_config
  | fans
  | offset
  | requires_axis_homed
  | heater_active_to_standby_delay_in_config
  | heater_standby_to_powerdown_delay_in_config
deriving DecidableEq, Repr

/-- Values the inheritable attributes and user parameters take: strings
(gcode templates, heater/fan specs, axis masks), booleans, numbers and the
3-float offset vector. -/
inductive PVal
  | s (v : String)
  | b (v : Bool)
  | f (v : Rat)
  | offs (x y z : Rat)
deriving DecidableEq, Repr

/-- Modelled from the spec: `DEFAULT_HEATER_ACTIVE_TO_STANDBY_DELAY` is
defined in `ktc_heater.py`, which is not under src/; spec section 6 gives
0.1 as the minimal nonzero delay.  No claim depends on the exact value. -/
def DEFAULT_HEATER_ACTIVE_TO_STANDBY_DELAY : Rat := 0.1

/-- Modelled from the spec: `DEFAULT_HEATER_STANDBY_TO_POWERDOWN_DELAY` is
defined in `ktc_heater.py`, which is not under src/.  No claim depends on
the exact value. -/
def DEFAULT_HEATER_STANDBY_TO_POWERDOWN_DELAY : Rat := 600

/-- The default value of each inheritable attribute, per the
`PARAMS_TO_INHERIT` dict (ktc_base.py lines 33-48). -/
def PARAMS_TO_INHERIT : PKey → PVal
  | PKey.engage_gcode => PVal.s ""
  | PKey.disengage_gcode => PVal.s ""
  | PKey.init_gcode => PVal.s ""
  | PKey.tool_select_gcode => PVal.s ""
  | PKey.tool_deselect_gcode => PVal.s ""
  | PKey.force_deselect_when_parent_deselects => PVal.b true
  | PKey.parent_must_be_selected_on_deselect => PVal.b true
  | PKey.heaters_config => PVal.s ""
  | PKey.fans => PVal.s ""
  | PKey.offset => PVal.offs 0 0 0
  | PKey.requires_axis_homed => PVal.s "XYZ"
  | PKey.heater_active_to_standby_delay_in_config =>
      PVal.f DEFAULT_HEATER_ACTIVE_TO_STANDBY_DELAY
  | PKey.heater_standby_to_powerdown_delay_in_config =>
      PVal.f DEFAULT_HEATER_STANDBY_TO_POWERDOWN_DELAY

/-- A configurable entity (tool, toolchanger, or the root `ktc` object) as
seen by `configure_inherited_params`: its lifecycle state, the inheritable
attributes (`none` is Python `None`, the "unspecified" sentinel), the
open-ended `params_*` user-parameter mapping, and the one-time
`_initiating_config` entries collected in `__init__`. -/
structure Entity where
  state : Int
  fields : PKey → Option PVal
  params : List (String × PVal)
  initiating_config : List (String × PVal)

/-- The generator-expression filter of ktc_base.py line 192: does any
initiating-config key contain "offset" as a substring? -/
def hasOffsetKey (cfg : List (String × PVal)) : Bool :=
  cfg.any (fun kv => 2 ≤ (kv.1.splitOn "offset").length)

/-- The user-parameter merge loop of ktc_base.py lines 241-243: copy each of
`parentParams`' keys absent from `childParams`. -/
def mergeParams (childParams parentParams : List (String × PVal)) : List (String × PVal) :=
  childParams ++ parentParams.filter
    (fun kv => !(childParams.any (fun kv2 => kv2.1 == kv.1)))

/-- `KtcBaseClass.configure_inherited_params` (ktc_base.py lines 181-243).
`parent` is the parent entity computed at lines 219-228 (`none` when the
entity is the process root, i.e. `self == parent`); `persistentOffset` is
the `persistent_state.get("offset", None)` collaborator read of line 216.
Steps: raise after persisting when an `init_*offset` key is present (lines
191-197); return unchanged when state is already at least CONFIGURED (line
200); raise on re-entrant resolution (line 202); set state to CONFIGURING;
load the offset from persistent storage; for a non-root entity copy each
`None` inheritable attribute from the parent (lines 230-234); for the root
set each `None` attribute to its default and then run the user-parameter
merge loop, whose `parent` is the root itself so it copies nothing (lines
235-243).  Cross-entity state propagation by the tool state setter (see
`setToolState`) touches neither `fields` nor `params` and is elided in this
entity-local model. -/
def configure_inherited_params (e : Entity) (parent : Option Entity)
    (persistentOffset : Option PVal) : Except Err Entity :=
  if hasOffsetKey e.initiating_config then Except.error Err.initOffsetSaved
  else if e.state ≥ StateType.CONFIGURED then Except.ok e
  else if e.state = StateType.CONFIGURING then Except.error Err.circularInheritance
  else
    let e1 : Entity := { e with state := StateType.CONFIGURING }
    let e2 : Entity := { e1 with fields := fun p =>
      if p = PKey.offset then persistentOffset else e1.fields p }
    match parent with
    | some par =>
      Except.ok { e2 with fields := fun p =>
        (match e2.fields p with
        | none => par.fields p
        | some v => some v) }
    | none =>
      let e3 : Entity := { e2 with fields := fun p =>
        (match e2.fields p with
        | none => some (PARAMS_TO_INHERIT p)
        | some v => some v) }
      Except.ok { e3 with params := mergeParams e3.params e3.params }

/- Shared concrete sample data used by the witnesses and counterexamples. -/

/-- A plain tool: READY, on toolchanger 0, no heaters, no fan, no homing
requirement. -/
def sampleTool : ToolE :=
  { name := "t0"
    state := StateType.READY
    toolchanger := 0
    force_deselect_when_parent_deselects := true
    parent_must_be_selected_on_deselect := true
    heaters := none
    heater_state := HeaterState.off
    heater_active_temp := 0
    heater_standby_temp := 0
    heater_active_to_standby_delay := 1
    heater_standby_to_powerdown_delay := 2
    timer_to_standby := 0
    timer_to_powerdown := 0
    fan := none
    requires_axis_homed := "" }

/-- A root toolchanger: READY, no parent tool, nothing selected. -/
def sampleChanger : Changer :=
  { state := StateType.READY
    parent_tool := none
    selected_tool := ToolRef.tool_none }

/-- An environment whose collaborators do nothing: homing always passes and
both procedures return without touching the world. -/
def idEnv : Env :=
  { homed := fun _ => true
    selProc := fun _ w => some w
    deselProc := fun _ w => some w
    savedFanSpeed := 0 }

/- Theorems for the claims. -/

/-- C3: for every tool, calling `select(tool, _, finalSelected=true)` while
the process-wide active tool is the "unknown" sentinel raises an error
before any external procedure is invoked (the trace is empty) and leaves
the world - in particular the tool's state - unchanged. -/
theorem select_unknown_active_fails_early (env : Env) (fuel : Nat) (w : World)
    (i : Nat) (rm : Option Unit) (h : w.active_tool = ToolRef.tool_unknown) :
    select env fuel w i rm true = ⟨[], w, some Err.unknownMounted⟩ := by
  unfold select
  rw [h]
  simp

/-- Witness for C3 at a concrete world whose active tool is the "unknown"
sentinel. -/
theorem select_unknown_active_fails_early_witness :
    (World.mk (fun _ => sampleTool) (fun _ => sampleChanger) ToolRef.tool_unknown
        true).active_tool = ToolRef.tool_unknown ∧
    select idEnv 3 (World.mk (fun _ => sampleTool) (fun _ => sampleChanger)
        ToolRef.tool_unknown true) 0 none true =
      ⟨[], World.mk (fun _ => sampleTool) (fun _ => sampleChanger) ToolRef.tool_unknown true,
        some Err.unknownMounted⟩ :=
  ⟨rfl, select_unknown_active_fails_early idEnv 3 _ 0 none rfl⟩

/-- C4: for every tool that already equals the process-wide active tool,
`select(tool, _, finalSelected=true)` succeeds as a no-op: no external
procedure is invoked (empty trace) and the world - tool states, heater
states and the active-tool reference - is unchanged. -/
theorem select_active_tool_noop (env : Env) (fuel : Nat) (w : World) (i : Nat)
    (rm : Option Unit) (h : w.active_tool = ToolRef.real i) :
    select env fuel w i rm true = ⟨[], w, none⟩ := by
  unfold select
  rw [h]
  simp

/-- Witness for C4 at a concrete world whose active tool is tool 0. -/
theorem select_active_tool_noop_witness :
    (World.mk (fun _ => sampleTool) (fun _ => sampleChanger) (ToolRef.real 0)
        true).active_tool = ToolRef.real 0 ∧
    select idEnv 3 (World.mk (fun _ => sampleTool) (fun _ => sampleChanger)
        (ToolRef.real 0) true) 0 none true =
      ⟨[], World.mk (fun _ => sampleTool) (fun _ => sampleChanger) (ToolRef.real 0) true,
        none⟩ :=
  ⟨rfl, select_active_tool_noop idEnv 3 _ 0 none rfl⟩

/-- C9: for every (non-sentinel, hence arena) tool with state propagation
enabled, assigning the tool a state also sets its owning toolchanger's
state to the same value; assigning SELECTED additionally sets the
toolchanger's selected-tool reference to the tool; assigning ACTIVE
additionally sets both the toolchanger's selected-tool reference and the
process-wide active-tool reference to the tool. -/
theorem tool_state_propagates (w : World) (i : Nat) (v : Int)
    (h : w.propagate_state = true) :
    ((setToolState w i v).tools i).state = v ∧
    ((setToolState w i v).changers (w.tools i).toolchanger).state = v ∧
    (v = StateType.SELECTED →
      ((setToolState w i v).changers (w.tools i).toolchanger).selected_tool = ToolRef.real i) ∧
    (v = StateType.ACTIVE →
      ((setToolState w i v).changers (w.tools i).toolchanger).selected_tool = ToolRef.real i ∧
      (setToolState w i v).active_tool = ToolRef.real i) := by
  unfold setToolState updateTool updateChanger
  simp [h]
  by_cases h5 : v = StateType.SELECTED <;> by_cases h10 : v = StateType.ACTIVE <;>
    simp_all [StateType.SELECTED, StateType.ACTIVE]

/-- Witness for C9: assigning ACTIVE at a concrete world with propagation
enabled. -/
theorem tool_state_propagates_witness :
    (World.mk (fun _ => sampleTool) (fun _ => sampleChanger) ToolRef.tool_none
        true).propagate_state = true ∧
    (((setToolState (World.mk (fun _ => sampleTool) (fun _ => sampleChanger)
        ToolRef.tool_none true) 0 StateType.ACTIVE).tools 0).state = StateType.ACTIVE ∧
      ((setToolState (World.mk (fun _ => sampleTool) (fun _ => sampleChanger)
        ToolRef.tool_none true) 0 StateType.ACTIVE).changers
          ((World.mk (fun _ => sampleTool) (fun _ => sampleChanger) ToolRef.tool_none
            true).tools 0).toolchanger).state = StateType.ACTIVE ∧
      (StateType.ACTIVE = StateType.SELECTED →
        ((setToolState (World.mk (fun _ => sampleTool) (fun _ => sampleChanger)
          ToolRef.tool_none true) 0 StateType.ACTIVE).changers
            ((World.mk (fun _ => sampleTool) (fun _ => sampleChanger) ToolRef.tool_none
              true).tools 0).toolchanger).selected_tool = ToolRef.real 0) ∧
      (StateType.ACTIVE = StateType.ACTIVE →
        ((setToolState (World.mk (fun _ => sampleTool) (fun _ => sampleChanger)
          ToolRef.tool_none true) 0 StateType.ACTIVE).changers
            ((World.mk (fun _ => sampleTool) (fun _ => sampleChanger) ToolRef.tool_none
              true).tools 0).toolchanger).selected_tool = ToolRef.real 0 ∧
        (setToolState (World.mk (fun _ => sampleTool) (fun _ => sampleChanger)
          ToolRef.tool_none true) 0 StateType.ACTIVE).active_tool = ToolRef.real 0)) :=
  ⟨rfl, tool_state_propagates _ 0 StateType.ACTIVE rfl⟩

/-- C7: after `configure_inherited_params` completes on an entity whose
guards pass (no initiating offset key, state not yet CONFIGURED and not
re-entrant), every inheritable field that is unset (`none`) at the point
the resolution loop runs - for the offset this is the value loaded from
persistent storage, for all other fields the configured value - is copied
from the immediate parent, and every set field keeps its value; for the
process root (no parent), unset fields are set to the hard-coded
`PARAMS_TO_INHERIT` defaults instead. -/
theorem inherited_params_resolution (e : Entity) (par : Entity)
    (pOff : Option PVal)
    (h1 : hasOffsetKey e.initiating_config = false)
    (h2 : ¬ e.state ≥ StateType.CONFIGURED)
    (h3 : e.state ≠ StateType.CONFIGURING) :
    (∃ e', configure_inherited_params e (some par) pOff = Except.ok e' ∧
      ∀ p, ((if p = PKey.offset then pOff else e.fields p) = none →
              e'.fields p = par.fields p) ∧
           (∀ v, (if p = PKey.offset then pOff else e.fields p) = some v →
              e'.fields p = some v)) ∧
    (∃ e', configure_inherited_params e none pOff = Except.ok e' ∧
      ∀ p, ((if p = PKey.offset then pOff else e.fields p) = none →
              e'.fields p = some (PARAMS_TO_INHERIT p)) ∧
           (∀ v, (if p = PKey.offset then pOff else e.fields p) = some v →
              e'.fields p = some v)) := by
  unfold configure_inherited_params
  rw [if_neg (by simp [h1]), if_neg h2, if_neg h3, if_neg (by simp [h1]), if_neg h2,
    if_neg h3]
  constructor
  · refine ⟨_, rfl, fun p => ⟨fun hnone => ?_, fun v hsome => ?_⟩⟩
    · simp only [hnone]
    · simp only [hsome]
  · refine ⟨_, rfl, fun p => ⟨fun hnone => ?_, fun v hsome => ?_⟩⟩
    · simp only [hnone]
    · simp only [hsome]

/-- Witness for C7: a child with `fans` set and
`force_deselect_when_parent_deselects` unset, resolved against a parent. -/
theorem inherited_params_resolution_witness :
    hasOffsetKey (Entity.mk StateType.NOT_CONFIGURED
        (fun p => if p = PKey.fans then some (PVal.s "partfan") else none) [] []
      ).initiating_config = false ∧
    ¬ (Entity.mk StateType.NOT_CONFIGURED
        (fun p => if p = PKey.fans then some (PVal.s "partfan") else none) [] []
      ).state ≥ StateType.CONFIGURED ∧
    (Entity.mk StateType.NOT_CONFIGURED
        (fun p => if p = PKey.fans then some (PVal.s "partfan") else none) [] []
      ).state ≠ StateType.CONFIGURING ∧
    ((∃ e', configure_inherited_params
        (Entity.mk StateType.NOT_CONFIGURED
          (fun p => if p = PKey.fans then some (PVal.s "partfan") else none) [] [])
        (some (Entity.mk StateType.CONFIGURED (fun _ => some (PVal.b false)) [] []))
        none = Except.ok e' ∧
      ∀ p, ((if p = PKey.offset then (none : Option PVal) else
              (Entity.mk StateType.NOT_CONFIGURED
                (fun p => if p = PKey.fans then some (PVal.s "partfan") else none)
                [] []).fields p) = none →
              e'.fields p = (Entity.mk StateType.CONFIGURED
                (fun _ => some (PVal.b false)) [] []).fields p) ∧
           (∀ v, (if p = PKey.offset then (none : Option PVal) else
              (Entity.mk StateType.NOT_CONFIGURED
                (fun p => if p = PKey.fans then some (PVal.s "partfan") else none)
                [] []).fields p) = some v →
              e'.fields p = some v)) ∧
    (∃ e', configure_inherited_params
        (Entity.mk StateType.NOT_CONFIGURED
          (fun p => if p = PKey.fans then some (PVal.s "partfan") else none) [] [])
        none none = Except.ok e' ∧
      ∀ p, ((if p = PKey.offset then (none : Option PVal) else
              (Entity.mk StateType.NOT_CONFIGURED
                (fun p => if p = PKey.fans then some (PVal.s "partfan") else none)
                [] []).fields p) = none →
              e'.fields p = some (PARAMS_TO_INHERIT p)) ∧
           (∀ v, (if p = PKey.offset then (none : Option PVal) else
              (Entity.mk StateType.NOT_CONFIGURED
                (fun p => if p = PKey.fans then some (PVal.s "partfan") else none)
                [] []).fields p) = some v →
              e'.fields p = some v))) :=
  ⟨rfl, by decide, by decide,
    inherited_params_resolution _ _ none rfl (by decide) (by decide)⟩

/-- C1 (code evaluation at the failing input): `KtcTool.deselect`'s
post-procedure check (ktc_tool.py line 320) compares the state against
ENGAGING - the select-side transient - instead of DESELECTING, so when the
external deselect procedure returns without transitioning the state away
from DESELECTING, `deselect` does NOT fail: it completes with no exception,
leaving the tool's state at DESELECTING, and sets the process-wide active
tool to the "none" sentinel. -/
theorem deselect_missing_transition_check :
    (deselect idEnv (World.mk (fun _ => sampleTool) (fun _ => sampleChanger)
        (ToolRef.real 0) true) 0).err = none ∧
    ((deselect idEnv (World.mk (fun _ => sampleTool) (fun _ => sampleChanger)
        (ToolRef.real 0) true) 0).world.tools 0).state = StateType.DESELECTING ∧
    (deselect idEnv (World.mk (fun _ => sampleTool) (fun _ => sampleChanger)
        (ToolRef.real 0) true) 0).world.active_tool = ToolRef.tool_none :=
  ⟨rfl, rfl, rfl⟩

/-- C10 (code evaluation at the failing input): `KtcTool.select` checks
only for the state still being SELECTING after the procedure returns
(ktc_tool.py line 263); the state being ERROR is not checked.  With a
procedure that sets the tool's state to ERROR and returns, a final select
completes without exception, sets the process-wide active tool to the tool
and overwrites the ERROR state with ACTIVE. -/
theorem select_ignores_error_state :
    (select (Env.mk (fun _ => true)
        (fun i w => some (setToolState w i StateType.ERROR))
        (fun _ w => some w) 0) 3
      (World.mk (fun _ => sampleTool) (fun _ => sampleChanger) ToolRef.tool_none true)
      0 none true).err = none ∧
    (select (Env.mk (fun _ => true)
        (fun i w => some (setToolState w i StateType.ERROR))
        (fun _ w => some w) 0) 3
      (World.mk (fun _ => sampleTool) (fun _ => sampleChanger) ToolRef.tool_none true)
      0 none true).world.active_tool = ToolRef.real 0 ∧
    ((select (Env.mk (fun _ => true)
        (fun i w => some (setToolState w i StateType.ERROR))
        (fun _ w => some w) 0) 3
      (World.mk (fun _ => sampleTool) (fun _ => sampleChanger) ToolRef.tool_none true)
      0 none true).world.tools 0).state = StateType.ACTIVE :=
  ⟨rfl, rfl, rfl⟩

/-- C5 (code evaluation at the failing input): because `KtcTool.set_heater`
returns before running its body (ktc_tool.py line 402), a final select of a
tool with a heater binding never moves the heater to the Active state.  The
select procedure here raises if it observes the heater Active at invocation
time; the call nevertheless succeeds, and the heater is still Off after the
whole select. -/
theorem select_does_not_warm_heaters :
    (select (Env.mk (fun _ => true)
        (fun i w => if (w.tools i).heater_state = HeaterState.active then none
          else some (setToolState w i StateType.ENGAGED))
        (fun _ w => some w) 0) 3
      (World.mk (fun _ => { sampleTool with heaters := some ["extruder"] })
        (fun _ => sampleChanger) ToolRef.tool_none true)
      0 none true).err = none ∧
    ((select (Env.mk (fun _ => true)
        (fun i w => if (w.tools i).heater_state = HeaterState.active then none
          else some (setToolState w i StateType.ENGAGED))
        (fun _ w => some w) 0) 3
      (World.mk (fun _ => { sampleTool with heaters := some ["extruder"] })
        (fun _ => sampleChanger) ToolRef.tool_none true)
      0 none true).world.tools 0).heater_state = HeaterState.off ∧
    HeaterState.off ≠ HeaterState.active :=
  ⟨rfl, rfl, by decide⟩

/-- C6 (code evaluation at the failing input): requesting the heater state
Off via `set_heater` from Standby leaves both timers untouched - the bare
`return` at ktc_tool.py line 402 makes the whole body, including the Off
branch of lines 503-510, unreachable - so the active-to-standby timer is
not set to 0 and the standby-to-powerdown timer is not set to 0.1. -/
theorem set_heater_off_leaves_timers :
    ((set_heater (World.mk
        (fun _ => { sampleTool with
          heaters := some ["extruder"]
          heater_state := HeaterState.standby
          timer_to_standby := 5
          timer_to_powerdown := 300 })
        (fun _ => sampleChanger) ToolRef.tool_none true) 0
        (SetHeaterKwargs.mk (some HeaterState.off) none none none none)).tools 0
      ).heater_state = HeaterState.standby ∧
    ((set_heater (World.mk
        (fun _ => { sampleTool with
          heaters := some ["extruder"]
          heater_state := HeaterState.standby
          timer_to_standby := 5
          timer_to_powerdown := 300 })
        (fun _ => sampleChanger) ToolRef.tool_none true) 0
        (SetHeaterKwargs.mk (some HeaterState.off) none none none none)).tools 0
      ).timer_to_standby = 5 ∧
    ((set_heater (World.mk
        (fun _ => { sampleTool with
          heaters := some ["extruder"]
          heater_state := HeaterState.standby
          timer_to_standby := 5
          timer_to_powerdown := 300 })
        (fun _ => sampleChanger) ToolRef.tool_none true) 0
        (SetHeaterKwargs.mk (some HeaterState.off) none none none none)).tools 0
      ).timer_to_powerdown = 300 ∧
    ¬ (((set_heater (World.mk
        (fun _ => { sampleTool with
          heaters := some ["extruder"]
          heater_state := HeaterState.standby
          timer_to_standby := 5
          timer_to_powerdown := 300 })
        (fun _ => sampleChanger) ToolRef.tool_none true) 0
        (SetHeaterKwargs.mk (some HeaterState.off) none none none none)).tools 0
      ).timer_to_standby = 0 ∧
      ((set_heater (World.mk
        (fun _ => { sampleTool with
          heaters := some ["extruder"]
          heater_state := HeaterState.standby
          timer_to_standby := 5
          timer_to_powerdown := 300 })
        (fun _ => sampleChanger) ToolRef.tool_none true) 0
        (SetHeaterKwargs.mk (some HeaterState.off) none none none none)).tools 0
      ).timer_to_powerdown = 0.1) :=
  ⟨rfl, rfl, rfl, by norm_num [set_heater]⟩

/- Machinery for the C2 ordering property: classify events and locate them
in the trace of a cross-toolchanger select. -/

/-- Does this event mark the beginning of an external select-procedure
invocation? -/
def Event.isSelStart : Event → Bool
  | Event.selStart _ => true
  | _ => false

/-- Does this event mark the completion of an external deselect-procedure
invocation? -/
def Event.isDeselEnd : Event → Bool
  | Event.deselEnd _ => true
  | _ => false

/-- No event of a `deselect` trace starts a select procedure. -/
theorem deselect_trace_no_selStart (env : Env) (w : World) (i : Nat) :
    ∀ e ∈ (deselect env w i).trace, e.isSelStart = false := by
  intro e he
  rcases hh : env.homed (w.tools i).requires_axis_homed with _ | _
  · simp [deselect, hh] at he
  · rcases hf : (w.tools i).fan with _ | f
    · rcases hp : env.deselProc i (setToolState w i StateType.DESELECTING) with _ | w2
      · simp [deselect, hh, hf, hp] at he
        subst he
        rfl
      · simp [deselect, hh, hf, hp, apply_ite Res.trace] at he
        rcases he with rfl | rfl <;> rfl
    · rcases hp : env.deselProc i (setToolState w i StateType.DESELECTING) with _ | w2
      · simp [deselect, hh, hf, hp] at he
        rcases he with rfl | rfl <;> rfl
      · simp [deselect, hh, hf, hp, apply_ite Res.trace] at he
        rcases he with rfl | rfl | rfl <;> rfl

/-- No event of a `select_tail` trace completes a deselect procedure. -/
theorem select_tail_trace_no_deselEnd (env : Env) (fin : Bool) (w : World) (i : Nat) :
    ∀ e ∈ (select_tail env fin w i).trace, e.isDeselEnd = false := by
  intro e he
  by_cases h1 : (w.tools i).state = StateType.ENGAGED
  · simp [select_tail, h1] at he
  · rcases hh : env.homed (w.tools i).requires_axis_homed with _ | _
    · simp [select_tail, h1, hh] at he
    · rcases hp : env.selProc i (setToolState w i StateType.SELECTING) with _ | w2
      · simp [select_tail, h1, hh, hp] at he
        subst he
        rfl
      · by_cases h2 : (w2.tools i).state = StateType.SELECTING
        · simp [select_tail, h1, hh, hp, h2] at he
          rcases he with rfl | rfl <;> rfl
        · rcases hf : (w2.tools i).fan with _ | f <;> cases fin <;>
            simp [select_tail, h1, hh, hp, h2, hf] at he <;>
            rcases he with rfl | rfl | rfl <;> rfl

/-- A predicate true of every event a step emits is true of every event a
chain of those steps emits. -/
theorem runChain_trace_all (P : Event → Prop) (step : World → Nat → Res)
    (hstep : ∀ w t, ∀ e ∈ (step w t).trace, P e) :
    ∀ (l : List Nat) (w : World), ∀ e ∈ (runChain step l w).trace, P e := by
  intro l
  induction l with
  | nil =>
    intro w e he
    simp [runChain] at he
  | cons t ts ih =>
    intro w e he
    simp only [runChain] at he
    rcases herr : (step w t).err with _ | err <;> rw [herr] at he <;> simp only [] at he
    · rw [List.mem_append] at he
      rcases he with h | h
      · exact hstep _ _ _ h
      · exact ih _ _ h
    · exact hstep _ _ _ he

/-- In a concatenation whose left part has no select-start events and whose
right part has no deselect-end events, every deselect-end position precedes
every select-start position. -/
theorem append_event_order (l1 l2 : List Event) (p q : Nat) (a b : Nat)
    (h1 : ∀ e ∈ l1, Event.isSelStart e = false)
    (h2 : ∀ e ∈ l2, Event.isDeselEnd e = false)
    (hp : (l1 ++ l2)[p]? = some (Event.deselEnd a))
    (hq : (l1 ++ l2)[q]? = some (Event.selStart b)) :
    p < q := by
  have hp1 : p < l1.length := by
    by_contra hcon
    push_neg at hcon
    rw [List.getElem?_append_right hcon] at hp
    have := h2 _ (List.getElem?_mem hp)
    simp [Event.isDeselEnd] at this
  have hq1 : l1.length ≤ q := by
    by_contra hcon
    push_neg at hcon
    rw [List.getElem?_append_left hcon] at hq
    have := h1 _ (List.getElem?_mem hq)
    simp [Event.isSelStart] at this
  omega

/-- The trace of the cross-toolchanger chain code splits into a part with
no select-start events (the deselect chain) followed by a part with no
deselect-end events (the select chain). -/
theorem crossChains_trace_split (env : Env) (fuel : Nat) (w : World) (i j : Nat) :
    ∃ ld ls, (crossChains env fuel w i j).trace = ld ++ ls ∧
      (∀ e ∈ ld, Event.isSelStart e = false) ∧
      (∀ e ∈ ls, Event.isDeselEnd e = false) := by
  unfold crossChains
  rcases h1 : traversal w (fun t => t.force_deselect_when_parent_deselects) fuel
      (ToolRef.real j) with _ | toolsD
  · exact ⟨[], [], by simp, by simp, by simp⟩
  · simp only []
    have hdchain : ∀ e ∈ (runChain (fun w' t => deselect env w' t) toolsD w).trace,
        Event.isSelStart e = false :=
      runChain_trace_all _ _ (fun w' t => deselect_trace_no_selStart env w' t) toolsD w
    rcases herr : (runChain (fun w' t => deselect env w' t) toolsD w).err with _ | err
    · rcases h3 : traversal (runChain (fun w' t => deselect env w' t) toolsD w).world
          (fun t => decide (t.state ≠ StateType.ENGAGED)) fuel (ToolRef.real i) with
        _ | toolsS
      · exact ⟨(runChain (fun w' t => deselect env w' t) toolsD w).trace, [],
          by simp, hdchain, by simp⟩
      · refine ⟨(runChain (fun w' t => deselect env w' t) toolsD w).trace,
          (runChain (fun w' t => select_tail env false w' t) toolsS.reverse
            (runChain (fun w' t => deselect env w' t) toolsD w).world).trace,
          by simp, hdchain, ?_⟩
        exact runChain_trace_all _ _
          (fun w' t => select_tail_trace_no_deselEnd env false w' t) toolsS.reverse _
    · exact ⟨(runChain (fun w' t => deselect env w' t) toolsD w).trace, [],
        by simp, hdchain, by simp⟩

/-- The shape `select` takes on the cross-toolchanger path: position save,
then the chains, then the tail for the target tool itself. -/
theorem select_cross_eq (env : Env) (fuel : Nat) (w : World) (i j : Nat)
    (rm : Option Unit)
    (hat : w.active_tool = ToolRef.real j)
    (hij : j ≠ i)
    (hcc : (w.tools i).toolchanger ≠ (w.tools j).toolchanger) :
    select env fuel w i rm true =
      (let trP : List Event :=
        match rm with
        | some _ => [Event.savePosition]
        | none => []
       let c := crossChains env fuel w i j
       match c.err with
       | some e => ⟨trP ++ c.trace, c.world, some e⟩
       | none =>
         let s := select_tail env true c.world i
         ⟨trP ++ c.trace ++ s.trace, s.world, s.err⟩) := by
  have h1 : ¬ (ToolRef.real j = ToolRef.real i) := by simp [hij]
  have h2 : ¬ (ToolRef.real j = ToolRef.tool_unknown) := by simp
  simp [select, hat, h1, h2, set_heater, hcc]

/-- Positional ordering for a trace of the form
`prefix ++ (deselect-part ++ select-part) ++ tail`. -/
theorem prefix_chain_tail_order (trP ld ls tl : List Event) (p q a b : Nat)
    (hP : ∀ e ∈ trP, Event.isSelStart e = false)
    (hld : ∀ e ∈ ld, Event.isSelStart e = false)
    (hls : ∀ e ∈ ls, Event.isDeselEnd e = false)
    (htl : ∀ e ∈ tl, Event.isDeselEnd e = false)
    (hp : (trP ++ (ld ++ ls) ++ tl)[p]? = some (Event.deselEnd a))
    (hq : (trP ++ (ld ++ ls) ++ tl)[q]? = some (Event.selStart b)) :
    p < q := by
  have hassoc : trP ++ (ld ++ ls) ++ tl = (trP ++ ld) ++ (ls ++ tl) := by
    simp [List.append_assoc]
  rw [hassoc] at hp hq
  refine append_event_order (trP ++ ld) (ls ++ tl) p q a b ?_ ?_ hp hq
  · intro e he
    rcases List.mem_append.mp he with h | h
    · exact hP _ h
    · exact hld _ h
  · intro e he
    rcases List.mem_append.mp he with h | h
    · exact hls _ h
    · exact htl _ h

/-- C2: in a final cross-toolchanger select (some tool on a different
toolchanger is active), every completion of a deselect-procedure invocation
occurs strictly before every start of a select-procedure invocation in the
emitted event trace - the old chain is fully retracted before any part of
the new chain is engaged. -/
theorem cross_toolchanger_deselects_precede_selects (env : Env) (fuel : Nat)
    (w : World) (i j : Nat) (rm : Option Unit)
    (hat : w.active_tool = ToolRef.real j)
    (hcc : (w.tools i).toolchanger ≠ (w.tools j).toolchanger) :
    ∀ (p q a b : Nat),
      (select env fuel w i rm true).trace[p]? = some (Event.deselEnd a) →
      (select env fuel w i rm true).trace[q]? = some (Event.selStart b) →
      p < q := by
  intro p q a b hp hq
  have hij : j ≠ i := fun hji => hcc (by rw [hji])
  rw [select_cross_eq env fuel w i j rm hat hij hcc] at hp hq
  obtain ⟨ld, ls, hsplit, hld, hls⟩ := crossChains_trace_split env fuel w i j
  have htail : ∀ (w' : World), ∀ e ∈ (select_tail env true w' i).trace,
      Event.isDeselEnd e = false :=
    fun w' => select_tail_trace_no_deselEnd env true w' i
  rcases rm with _ | u
  · rcases herr : (crossChains env fuel w i j).err with _ | err
    · simp only [] at hp hq
      rw [herr] at hp hq
      simp only [] at hp hq
      rw [hsplit] at hp hq
      exact prefix_chain_tail_order [] ld ls _ p q a b (by simp) hld hls (htail _)
        (by simpa using hp) (by simpa using hq)
    · simp only [] at hp hq
      rw [herr] at hp hq
      simp only [] at hp hq
      rw [hsplit] at hp hq
      exact prefix_chain_tail_order [] ld ls [] p q a b (by simp) hld hls (by simp)
        (by simpa using hp) (by simpa using hq)
  · rcases herr : (crossChains env fuel w i j).err with _ | err
    · simp only [] at hp hq
      rw [herr] at hp hq
      simp only [] at hp hq
      rw [hsplit] at hp hq
      exact prefix_chain_tail_order [Event.savePosition] ld ls _ p q a b
        (by simp [Event.isSelStart]) hld hls (htail _) (by simpa using hp)
        (by simpa using hq)
    · simp only [] at hp hq
      rw [herr] at hp hq
      simp only [] at hp hq
      rw [hsplit] at hp hq
      exact prefix_chain_tail_order [Event.savePosition] ld ls [] p q a b
        (by simp [Event.isSelStart]) hld hls (by simp) (by simpa using hp)
        (by simpa using hq)

/-- Witness for C2: two tools on distinct root toolchangers, tool 1 active,
tool 0 selected. -/
theorem cross_toolchanger_deselects_precede_selects_witness :
    (World.mk (fun j => if j = 0 then { sampleTool with toolchanger := 0 }
          else { sampleTool with toolchanger := 1 })
        (fun _ => sampleChanger) (ToolRef.real 1) true).active_tool = ToolRef.real 1 ∧
    ((World.mk (fun j => if j = 0 then { sampleTool with toolchanger := 0 }
          else { sampleTool with toolchanger := 1 })
        (fun _ => sampleChanger) (ToolRef.real 1) true).tools 0).toolchanger ≠
      ((World.mk (fun j => if j = 0 then { sampleTool with toolchanger := 0 }
          else { sampleTool with toolchanger := 1 })
        (fun _ => sampleChanger) (ToolRef.real 1) true).tools 1).toolchanger ∧
    ∀ (p q a b : Nat),
      (select idEnv 3 (World.mk (fun j => if j = 0 then { sampleTool with toolchanger := 0 }
          else { sampleTool with toolchanger := 1 })
        (fun _ => sampleChanger) (ToolRef.real 1) true) 0 none true).trace[p]? =
          some (Event.deselEnd a) →
      (select idEnv 3 (World.mk (fun j => if j = 0 then { sampleTool with toolchanger := 0 }
          else { sampleTool with toolchanger := 1 })
        (fun _ => sampleChanger) (ToolRef.real 1) true) 0 none true).trace[q]? =
          some (Event.selStart b) →
      p < q :=
  ⟨rfl, by decide,
    cross_toolchanger_deselects_precede_selects idEnv 3 _ 0 1 none rfl (by decide)⟩

/-- C8 (code evaluation at the failing input): the user-parameter merge
loop of ktc_base.py lines 241-243 sits in the root-only `else` branch
(where `parent` is the entity itself), so for a non-root child the parent's
user parameters are never merged: a parent key `params_x` absent on the
child is still absent after `configure_inherited_params`. -/
theorem user_params_not_merged_to_child :
    ∃ e', configure_inherited_params
        (Entity.mk StateType.NOT_CONFIGURED (fun _ => none) [] [])
        (some (Entity.mk StateType.CONFIGURED (fun p => some (PARAMS_TO_INHERIT p))
          [("params_x", PVal.f 5)] []))
        none = Except.ok e' ∧
      e'.params = [] :=
  ⟨_, rfl, rfl⟩

end KTC
